import Mathlib

/-!
Shallow embedding of the story-lifecycle, feed-visibility and interaction
handlers of the social-media backend (Express + Mongoose routes).
Identifiers (Mongo ObjectIds) and timestamps (JS Dates, millisecond clock)
are modelled as natural numbers; each handler takes the current time as an
explicit parameter standing for the `new Date()` it evaluates.
The document store is a record of lists, one per collection; `findById` /
`findOne` become `List.find?`, `find` with a filter becomes `List.filter`,
`create` / `save` append to the list, `deleteOne` / `remove` filter the list.
-/

/-- Story document (models/Story schema): owner, media reference, caption,
creation time, expiry time and the active flag (default true). -/
structure Story where
  id : Nat
  userId : Nat
  mediaUrl : String
  mediaId : String
  caption : String
  createdAt : Nat
  expiresAt : Nat
  isActive : Bool
deriving DecidableEq, Repr

/-- StoryView document as created by the view handler:
`StoryView.create({ storyId, userId })`. -/
structure StoryView where
  storyId : Nat
  userId : Nat
deriving DecidableEq, Repr

/-- Notification type enum from the Notification schema:
`['like', 'comment', 'follow', 'story_view']`. -/
inductive NotifType where
  | like
  | comment
  | follow
  | story_view
deriving DecidableEq, Repr

/-- Notification document (Notification schema): recipient `userId`, `type`,
actor `fromUserId`, optional `postId` and `storyId`. -/
structure Notification where
  userId : Nat
  type : NotifType
  fromUserId : Nat
  postId : Option Nat
  storyId : Option Nat
deriving DecidableEq, Repr

/-- Follow edge as created by the follow handler:
`new Follow({ followerId, followedId })`. -/
structure Follow where
  followerId : Nat
  followedId : Nat
deriving DecidableEq, Repr

/-- Like row as created by the like handler: `new Like({ postId, userId })`. -/
structure Like where
  postId : Nat
  userId : Nat
deriving DecidableEq, Repr

/-- Post document (models/Post schema): owner, media reference, caption. -/
structure Post where
  id : Nat
  userId : Nat
  mediaUrl : String
  mediaId : String
  caption : String
deriving DecidableEq, Repr

/-- The persistent store: one list per Mongo collection. -/
structure Store where
  stories : List Story
  views : List StoryView
  notifications : List Notification
  follows : List Follow
  likes : List Like
  posts : List Post
deriving DecidableEq, Repr

/-- Result of a request handler: `ok` for the 2xx JSON response, or
`error status msg` for `res.status(status).json({ error: msg })`. -/
inductive HResult where
  | ok
  | error (status : Nat) (msg : String)
deriving DecidableEq, Repr

/-- Modelled from the spec: `isVisible(story, now)` is true iff
`story.isActive == true AND story.expiresAt > now`.  The source has no
named function for this; the spec presents it as the predicate the read
queries implement, so it is stated here from the spec words to be compared
against the handlers embedded from the source. -/
def isVisible (s : Story) (now : Nat) : Bool :=
  s.isActive && decide (now < s.expiresAt)

/-- GET /api/stories/:userId (routes/stories.js):
`Story.find({ userId, isActive: true, expiresAt: { $gt: new Date() } })`. -/
def getUserStories (st : Store) (uid now : Nat) : List Story :=
  st.stories.filter (fun s =>
    s.userId == uid && s.isActive && decide (now < s.expiresAt))

/-- The viewer's outgoing follow edges resolved to followed ids:
`Follow.find({ followerId: userId }).select('followedId')` then
`follows.map(f => f.followedId)`. -/
def followedIds (st : Store) (viewerId : Nat) : List Nat :=
  (st.follows.filter (fun f => f.followerId == viewerId)).map (fun f => f.followedId)

/-- GET /api/stories/feed (routes/stories.js): resolve followed ids, then
`Story.find({ userId: { $in: followedIds }, isActive: true,
expiresAt: { $gt: new Date() } })`. -/
def storiesFeed (st : Store) (viewerId now : Nat) : List Story :=
  st.stories.filter (fun s =>
    (followedIds st viewerId).contains s.userId
      && s.isActive && decide (now < s.expiresAt))

/-- POST /api/stories/:id/view (routes/stories.js): `Story.findById(id)`;
404 "Story not found or expired" if `!story || !story.isActive ||
story.expiresAt < new Date()`; otherwise create a StoryView row and a
`story_view` Notification to the story owner. -/
def recordView (st : Store) (sid viewerId now : Nat) : HResult × Store :=
  match st.stories.find? (fun s => s.id == sid) with
  | none => (.error 404 "Story not found or expired", st)
  | some story =>
    if !story.isActive || decide (story.expiresAt < now) then
      (.error 404 "Story not found or expired", st)
    else
      (.ok,
        { st with
          views := st.views ++ [⟨sid, viewerId⟩]
          notifications := st.notifications ++
            [⟨story.userId, .story_view, viewerId, none, some sid⟩] })

/-- DELETE /api/stories/:id (routes/stories.js): `Story.findById(id)`;
404 if missing; 403 "Unauthorized" if `story.userId.toString() !== userId`;
then `await cloudinary.uploader.destroy(story.mediaId)` followed by
`await story.remove()`.  `mediaDeleteOk` models whether the delegate call
resolves; when it rejects, the surrounding catch returns 500 "Server error"
and `story.remove()` is never executed.  The third component collects the
media ids passed to the delegate's destroy. -/
def deleteStory (st : Store) (sid requesterId : Nat) (mediaDeleteOk : Bool) :
    HResult × Store × List String :=
  match st.stories.find? (fun s => s.id == sid) with
  | none => (.error 404 "Story not found", st, [])
  | some story =>
    if story.userId != requesterId then
      (.error 403 "Unauthorized", st, [])
    else if mediaDeleteOk then
      (.ok, { st with stories := st.stories.filter (fun s => !(s.id == sid)) },
        [story.mediaId])
    else
      (.error 500 "Server error", st, [story.mediaId])

/-- DELETE /api/posts/:id (routes/posts.js): same shape as story deletion —
`Post.findById(id)`; 404 if missing; 403 if not the owner; then
`cloudinary.uploader.destroy(post.mediaId)` followed by `post.remove()`,
with a delegate rejection caught as 500 before the record is removed. -/
def deletePost (st : Store) (pid requesterId : Nat) (mediaDeleteOk : Bool) :
    HResult × Store × List String :=
  match st.posts.find? (fun p => p.id == pid) with
  | none => (.error 404 "Post not found", st, [])
  | some post =>
    if post.userId != requesterId then
      (.error 403 "Unauthorized", st, [])
    else if mediaDeleteOk then
      (.ok, { st with posts := st.posts.filter (fun p => !(p.id == pid)) },
        [post.mediaId])
    else
      (.error 500 "Server error", st, [post.mediaId])

/-- The daily cron job (index.js): `Story.updateMany({ expiresAt:
{ $lte: new Date() } }, { isActive: false })` — every story whose
`expiresAt <= now` gets `isActive` set to false; nothing is deleted. -/
def sweepExpired (now : Nat) (stories : List Story) : List Story :=
  stories.map (fun s =>
    if s.expiresAt ≤ now then { s with isActive := false } else s)

/-- POST /api/interactions/like (routes/interactions.js):
`Like.findOne({ postId, userId })`; 400 "Already liked" if present;
otherwise `new Like({ postId, userId }).save()`, then
`Post.findById(postId)` and `Notification.create({ userId: post.userId,
type: 'like', fromUserId: userId, postId })`.  When the post is missing,
`post.userId` throws after the like was saved, so the catch returns
500 "Server error" with the like already persisted. -/
def likePost (st : Store) (pid uid : Nat) : HResult × Store :=
  match st.likes.find? (fun l => l.postId == pid && l.userId == uid) with
  | some _ => (.error 400 "Already liked", st)
  | none =>
    let st1 : Store := { st with likes := st.likes ++ [⟨pid, uid⟩] }
    match st.posts.find? (fun p => p.id == pid) with
    | none => (.error 500 "Server error", st1)
    | some post =>
      (.ok,
        { st1 with notifications := st1.notifications ++
            [⟨post.userId, .like, uid, some pid, none⟩] })

/-- POST /api/interactions/follow (routes/interactions.js):
400 "Cannot follow yourself" if `userId === followedId`;
`Follow.findOne({ followerId: userId, followedId })`, 400 "Already
following" if present; otherwise save the edge and create a `follow`
Notification to the followed user. -/
def followUser (st : Store) (uid fid : Nat) : HResult × Store :=
  if uid == fid then (.error 400 "Cannot follow yourself", st)
  else
    match st.follows.find? (fun f => f.followerId == uid && f.followedId == fid) with
    | some _ => (.error 400 "Already following", st)
    | none =>
      (.ok,
        { st with
          follows := st.follows ++ [⟨uid, fid⟩]
          notifications := st.notifications ++ [⟨fid, .follow, uid, none, none⟩] })

/-- Number of Like rows for a given (postId, userId) pair. -/
def likeCount (st : Store) (pid uid : Nat) : Nat :=
  (st.likes.filter (fun l => l.postId == pid && l.userId == uid)).length

/-! Concrete documents and stores used by witnesses and counterexamples. -/

/-- A concrete active story: id 1, owner 7, media id "m1", expires at 100. -/
def exStory : Story := ⟨1, 7, "u1", "m1", "c1", 0, 100, true⟩

/-- Store holding just `exStory` and a follow edge 2 → 7. -/
def exStore : Store := ⟨[exStory], [], [], [⟨2, 7⟩], [], []⟩

/-- Store holding just `exStory`, with no follow edges. -/
def exStoreNoFollow : Store := ⟨[exStory], [], [], [], [], []⟩

/-- A concrete post: id 1, owner 7, media id "pm1". -/
def exPost : Post := ⟨1, 7, "u2", "pm1", "c2"⟩

/-- Store holding `exStory` and `exPost`. -/
def exStoreP : Store := ⟨[exStory], [], [], [], [], [exPost]⟩

/-- `exStoreP` with an existing like (post 1, user 2). -/
def exStoreL : Store := { exStoreP with likes := [⟨1, 2⟩] }

/-- C1: the filters used by the story-read handlers (single-user list and
feed) coincide pointwise with `isVisible` (conjoined with the owner
condition), and `isVisible` is false for every `now` strictly past
`expiresAt`, regardless of `isActive`. -/
theorem C1_isVisible_reads (st : Store) (uid viewerId now : Nat) :
    getUserStories st uid now
      = st.stories.filter (fun s => s.userId == uid && isVisible s now)
    ∧ storiesFeed st viewerId now
      = st.stories.filter (fun s =>
          (followedIds st viewerId).contains s.userId && isVisible s now)
    ∧ ∀ s : Story, s.expiresAt < now → isVisible s now = false := by
  refine ⟨?_, ?_, ?_⟩
  · unfold getUserStories
    apply List.filter_congr
    intro s _
    simp [isVisible, Bool.and_assoc]
  · unfold storiesFeed
    apply List.filter_congr
    intro s _
    simp [isVisible, Bool.and_assoc]
  · intro s h
    simp only [isVisible, Bool.and_eq_false_iff, decide_eq_false_iff_not, Nat.not_lt]
    right
    omega

/-- Witness for C1 at a concrete expired story. -/
theorem C1_isVisible_reads_witness :
    exStory.expiresAt < 200 ∧ isVisible exStory 200 = false :=
  ⟨by decide, (C1_isVisible_reads exStore 7 2 200).2.2 exStory (by decide)⟩

/-- C2 counterexample: at the boundary `now = expiresAt` the view handler
succeeds (its check is `story.expiresAt < new Date()`), although
`isVisible` is false there — so recordView does not fail exactly when
`isVisible` is false, contradicting the claim. -/
theorem C2_boundary_counterexample :
    (recordView exStoreNoFollow 1 2 100).1 = HResult.ok
    ∧ isVisible exStory 100 = false := by
  constructor
  · rfl
  · decide

/-- C2 amended: recordView fails with 404 iff the story is missing, or its
`isActive` is false, or `expiresAt < now` (strictly); in every other case
it succeeds.  In particular at the boundary `now = expiresAt` it succeeds,
diverging from `isVisible` at exactly that instant. -/
theorem C2_recordView_amended (st : Store) (sid viewerId now : Nat) :
    ((recordView st sid viewerId now).1 = HResult.error 404 "Story not found or expired"
      ↔ (st.stories.find? (fun s => s.id == sid) = none
          ∨ ∃ story, st.stories.find? (fun s => s.id == sid) = some story
              ∧ (story.isActive = false ∨ story.expiresAt < now)))
    ∧ (∀ story, st.stories.find? (fun s => s.id == sid) = some story →
        story.isActive = true → now ≤ story.expiresAt →
        (recordView st sid viewerId now).1 = HResult.ok) := by
  constructor
  · cases hfind : st.stories.find? (fun s => s.id == sid) with
    | none => simp [recordView, hfind]
    | some story =>
      cases hact : story.isActive with
      | true =>
        by_cases hexp : story.expiresAt < now
        · simp [recordView, hfind, hact, hexp]
        · simp [recordView, hfind, hact, hexp]
      | false => simp [recordView, hfind, hact]
  · intro story hfind hact hle
    have hexp : ¬ story.expiresAt < now := by omega
    simp [recordView, hfind, hact, hexp]

/-- Witness for C2's amended theorem at a concrete in-window view. -/
theorem C2_recordView_amended_witness :
    (recordView exStoreNoFollow 1 2 50).1 = HResult.ok :=
  (C2_recordView_amended exStoreNoFollow 1 2 50).2 exStory rfl rfl (by decide)

/-- C3 counterexample: owner 7 deletes story 1 while the media delegate's
delete rejects — the handler catches the rejection and returns 500, the
store is unchanged and the story record is still present, so the deletion
does NOT proceed despite the DeleteError, contradicting the claim. -/
theorem C3_mediaDelete_counterexample :
    deleteStory exStoreNoFollow 1 7 false
      = (HResult.error 500 "Server error", exStoreNoFollow, ["m1"])
    ∧ (exStoreNoFollow.stories.find? (fun s => s.id == 1)) = some exStory := by
  constructor
  · rfl
  · rfl

/-- C3 amended: a failure of the media delegate's delete call is fatal, not
non-fatal: the handler returns 500 "Server error" and the story/post record
is NOT removed — the store is left unchanged (the record is removed only
when the delegate call succeeds). -/
theorem C3_mediaDelete_amended (st : Store) (sid pid req : Nat) :
    (∀ story, st.stories.find? (fun s => s.id == sid) = some story →
        story.userId = req →
        deleteStory st sid req false
          = (HResult.error 500 "Server error", st, [story.mediaId]))
    ∧ (∀ post, st.posts.find? (fun p => p.id == pid) = some post →
        post.userId = req →
        deletePost st pid req false
          = (HResult.error 500 "Server error", st, [post.mediaId])) := by
  constructor
  · intro story hfind howner
    simp [deleteStory, hfind, howner]
  · intro post hfind howner
    simp [deletePost, hfind, howner]

/-- Witness for C3's amended theorem: concrete story and post deletions
under a rejecting media delegate leave the store unchanged. -/
theorem C3_mediaDelete_amended_witness :
    deleteStory exStoreP 1 7 false
      = (HResult.error 500 "Server error", exStoreP, ["m1"])
    ∧ deletePost exStoreP 1 7 false
      = (HResult.error 500 "Server error", exStoreP, ["pm1"]) :=
  ⟨(C3_mediaDelete_amended exStoreP 1 1 7).1 exStory rfl rfl,
   (C3_mediaDelete_amended exStoreP 1 1 7).2 exPost rfl rfl⟩

/-- C4: the sweep deletes no rows (length preserved), is idempotent, and
pointwise sets `isActive` to false exactly on the stories with
`expiresAt <= now`, leaving every other field (and the `isActive` of
unexpired stories) unchanged. -/
theorem C4_sweepExpired_spec (now : Nat) (st : List Story) :
    (sweepExpired now st).length = st.length
    ∧ sweepExpired now (sweepExpired now st) = sweepExpired now st
    ∧ ∀ (i : Nat) (s : Story), st[i]? = some s →
        ∃ s2 : Story, (sweepExpired now st)[i]? = some s2
          ∧ s2.id = s.id ∧ s2.userId = s.userId ∧ s2.mediaId = s.mediaId
          ∧ s2.createdAt = s.createdAt ∧ s2.expiresAt = s.expiresAt
          ∧ (s.expiresAt ≤ now → s2.isActive = false)
          ∧ (now < s.expiresAt → s2.isActive = s.isActive) := by
  refine ⟨?_, ?_, ?_⟩
  · simp [sweepExpired]
  · unfold sweepExpired
    rw [List.map_map]
    apply List.map_congr_left
    intro s _
    by_cases h : s.expiresAt ≤ now
    · simp [h]
    · simp [h]
  · intro i s hget
    refine ⟨if s.expiresAt ≤ now then { s with isActive := false } else s, ?_, ?_⟩
    · simp [sweepExpired, List.getElem?_map, hget]
    · by_cases h : s.expiresAt ≤ now
      · simp [h]
      · refine ⟨by simp [h], by simp [h], by simp [h], by simp [h], by simp [h],
          fun hle => absurd hle h, fun _ => by simp [h]⟩

/-- Witness for C4 at a concrete single-story list swept past expiry. -/
theorem C4_sweepExpired_spec_witness :
    (sweepExpired 150 [exStory]).length = [exStory].length
    ∧ sweepExpired 150 (sweepExpired 150 [exStory]) = sweepExpired 150 [exStory]
    ∧ ∃ s2, (sweepExpired 150 [exStory])[0]? = some s2 ∧ s2.isActive = false := by
  have h := C4_sweepExpired_spec 150 [exStory]
  obtain ⟨s2, hs2, hfields⟩ := h.2.2 0 exStory rfl
  exact ⟨h.1, h.2.1, s2, hs2, hfields.2.2.2.2.2.1 (by decide)⟩

/-- C6: story deletion returns 404 with the store unchanged when the story
is missing, 403 with the store unchanged when the requester is not the
owner, and on success invokes the media delegate's delete with exactly the
story's media id and removes the record so that it is no longer findable
by id. -/
theorem C6_deleteStory_spec (st : Store) (sid req : Nat) :
    (st.stories.find? (fun s => s.id == sid) = none →
        deleteStory st sid req true = (HResult.error 404 "Story not found", st, []))
    ∧ (∀ story, st.stories.find? (fun s => s.id == sid) = some story →
        story.userId ≠ req →
        deleteStory st sid req true = (HResult.error 403 "Unauthorized", st, []))
    ∧ (∀ story, st.stories.find? (fun s => s.id == sid) = some story →
        story.userId = req →
        (deleteStory st sid req true).1 = HResult.ok
          ∧ (deleteStory st sid req true).2.2 = [story.mediaId]
          ∧ ((deleteStory st sid req true).2.1).stories.find?
              (fun s => s.id == sid) = none
          ∧ (deleteStory st sid req true).2.1.views = st.views
          ∧ (deleteStory st sid req true).2.1.stories
              = st.stories.filter (fun s => !(s.id == sid))) := by
  refine ⟨?_, ?_, ?_⟩
  · intro hfind
    simp [deleteStory, hfind]
  · intro story hfind hne
    simp [deleteStory, hfind, hne]
  · intro story hfind howner
    refine ⟨by simp [deleteStory, hfind, howner], by simp [deleteStory, hfind, howner],
      ?_, by simp [deleteStory, hfind, howner], by simp [deleteStory, hfind, howner]⟩
    have hres : (deleteStory st sid req true).2.1.stories
        = st.stories.filter (fun s => !(s.id == sid)) := by
      simp [deleteStory, hfind, howner]
    rw [hres, List.find?_eq_none]
    intro s hs
    have := (List.mem_filter.mp hs).2
    simp at this
    simp [this]

/-- Witness for C6: concrete owner-initiated deletion succeeds, calls the
delegate with the story's media id, and leaves the story unfindable. -/
theorem C6_deleteStory_spec_witness :
    (deleteStory exStoreP 1 7 true).1 = HResult.ok
    ∧ (deleteStory exStoreP 1 7 true).2.2 = ["m1"]
    ∧ ((deleteStory exStoreP 1 7 true).2.1).stories.find?
        (fun s => s.id == 1) = none := by
  have h := (C6_deleteStory_spec exStoreP 1 7).2.2 exStory rfl rfl
  exact ⟨h.1, h.2.1, h.2.2.1⟩

/-- C7: a story is in the feed exactly when it is in the store, its owner is
among the viewer's followed ids, and it is visible at `now`; when the viewer
follows nobody the feed is the empty list (not an error); and no story in
the feed has an unfollowed owner. -/
theorem C7_storiesFeed_spec (st : Store) (viewerId now : Nat) :
    (∀ s : Story, s ∈ storiesFeed st viewerId now ↔
        s ∈ st.stories ∧ s.userId ∈ followedIds st viewerId ∧ isVisible s now = true)
    ∧ (followedIds st viewerId = [] → storiesFeed st viewerId now = [])
    ∧ (∀ s : Story, s ∈ storiesFeed st viewerId now →
        s.userId ∈ followedIds st viewerId) := by
  have hmem : ∀ s : Story, s ∈ storiesFeed st viewerId now ↔
      s ∈ st.stories ∧ s.userId ∈ followedIds st viewerId ∧ isVisible s now = true := by
    intro s
    simp [storiesFeed, List.mem_filter, isVisible, List.contains, List.elem_iff,
      Bool.and_assoc, and_assoc]
  refine ⟨hmem, ?_, ?_⟩
  · intro hnone
    unfold storiesFeed
    rw [List.filter_eq_nil_iff]
    intro s _
    simp [hnone]
  · intro s hs
    exact ((hmem s).mp hs).2.1

/-- Witness for C7: with follow edge 2 → 7 the feed contains the concrete
story; with no follow edges the feed is empty. -/
theorem C7_storiesFeed_spec_witness :
    exStory ∈ storiesFeed exStore 2 10
    ∧ storiesFeed exStoreNoFollow 2 10 = [] :=
  ⟨((C7_storiesFeed_spec exStore 2 10).1 exStory).mpr
      ⟨by decide, by decide, by decide⟩,
   (C7_storiesFeed_spec exStoreNoFollow 2 10).2.1 rfl⟩

/-- C8: following yourself fails with 400 "Cannot follow yourself" for any
user id, leaving the store unchanged; following someone already followed
fails with 400 "Already following", leaving the store unchanged; otherwise
exactly one follow edge and one `follow` notification addressed to the
target with `fromUserId` the actor are appended. -/
theorem C8_follow_spec (st : Store) (uid fid : Nat) :
    (uid = fid → followUser st uid fid = (HResult.error 400 "Cannot follow yourself", st))
    ∧ (uid ≠ fid →
        ∀ f, st.follows.find?
            (fun f2 => f2.followerId == uid && f2.followedId == fid) = some f →
          followUser st uid fid = (HResult.error 400 "Already following", st))
    ∧ (uid ≠ fid →
        st.follows.find?
            (fun f => f.followerId == uid && f.followedId == fid) = none →
        followUser st uid fid
          = (HResult.ok,
              { st with
                follows := st.follows ++ [⟨uid, fid⟩]
                notifications := st.notifications ++
                  [⟨fid, NotifType.follow, uid, none, none⟩] })) := by
  refine ⟨?_, ?_, ?_⟩
  · intro h
    simp [followUser, h]
  · intro hne f hfind
    simp [followUser, hne, hfind]
  · intro hne hfind
    simp [followUser, hne, hfind]

/-- Witness for C8: the concrete self-follow failure and a concrete
successful follow with its edge and notification. -/
theorem C8_follow_spec_witness :
    followUser exStoreP 5 5 = (HResult.error 400 "Cannot follow yourself", exStoreP)
    ∧ followUser exStoreP 5 7
      = (HResult.ok,
          { exStoreP with
            follows := exStoreP.follows ++ [⟨5, 7⟩]
            notifications := exStoreP.notifications ++
              [⟨7, NotifType.follow, 5, none, none⟩] }) :=
  ⟨(C8_follow_spec exStoreP 5 5).1 rfl,
   (C8_follow_spec exStoreP 5 7).2.2 (by decide) rfl⟩

/-- C9: when the story exists, is active and `now` has not passed
`expiresAt`, recording a view succeeds and appends exactly one StoryView
row and one `story_view` notification to the story owner with `fromUserId`
the viewer; a second identical view also succeeds and the store then holds
two rows and two notifications (no deduplication). -/
theorem C9_recordView_effects (st : Store) (sid v now : Nat) :
    ∀ story, st.stories.find? (fun s => s.id == sid) = some story →
      story.isActive = true → now ≤ story.expiresAt →
      (recordView st sid v now).1 = HResult.ok
      ∧ (recordView st sid v now).2.views = st.views ++ [⟨sid, v⟩]
      ∧ (recordView st sid v now).2.notifications
          = st.notifications ++ [⟨story.userId, NotifType.story_view, v, none, some sid⟩]
      ∧ (recordView (recordView st sid v now).2 sid v now).1 = HResult.ok
      ∧ (recordView (recordView st sid v now).2 sid v now).2.views
          = st.views ++ [⟨sid, v⟩, ⟨sid, v⟩]
      ∧ (recordView (recordView st sid v now).2 sid v now).2.notifications
          = st.notifications
              ++ [⟨story.userId, NotifType.story_view, v, none, some sid⟩,
                  ⟨story.userId, NotifType.story_view, v, none, some sid⟩] := by
  intro story hfind hact hle
  have hexp : ¬ story.expiresAt < now := by omega
  have hst1 : (recordView st sid v now).2.stories = st.stories := by
    simp [recordView, hfind, hact, hexp]
  refine ⟨by simp [recordView, hfind, hact, hexp],
    by simp [recordView, hfind, hact, hexp],
    by simp [recordView, hfind, hact, hexp], ?_, ?_, ?_⟩
  · have hfind2 : (recordView st sid v now).2.stories.find?
        (fun s => s.id == sid) = some story := by rw [hst1]; exact hfind
    simp [recordView, hfind, hfind2, hact, hexp]
  · simp [recordView, hfind, hact, hexp]
  · simp [recordView, hfind, hact, hexp]

/-- Witness for C9: two concrete views of the same story by the same viewer
leave two StoryView rows and two notifications. -/
theorem C9_recordView_effects_witness :
    (recordView exStoreNoFollow 1 2 50).1 = HResult.ok
    ∧ (recordView (recordView exStoreNoFollow 1 2 50).2 1 2 50).2.views
        = [⟨1, 2⟩, ⟨1, 2⟩]
    ∧ (recordView (recordView exStoreNoFollow 1 2 50).2 1 2 50).2.notifications
        = [⟨7, NotifType.story_view, 2, none, some 1⟩,
           ⟨7, NotifType.story_view, 2, none, some 1⟩] := by
  have h := C9_recordView_effects exStoreNoFollow 1 2 50 exStory rfl rfl (by decide)
  exact ⟨h.1, h.2.2.2.2.1, h.2.2.2.2.2⟩

/-- C10: liking a post that does not exist, with no prior like by the actor,
persists the Like row and then fails with 500 "Server error" while reading
the owner off the missing post; the error response leaves the new Like in
the store and no notification is created — the failure is not atomic. -/
theorem C10_like_missing_post (st : Store) (pid uid : Nat) :
    st.likes.find? (fun l => l.postId == pid && l.userId == uid) = none →
    st.posts.find? (fun p => p.id == pid) = none →
    likePost st pid uid
      = (HResult.error 500 "Server error",
          { st with likes := st.likes ++ [⟨pid, uid⟩] })
      ∧ (likePost st pid uid).2.notifications = st.notifications := by
  intro hlike hpost
  constructor
  · simp [likePost, hlike, hpost]
  · simp [likePost, hlike, hpost]

/-- Witness for C10: a like on the nonexistent post 3 leaves the Like row in
the store and returns the 500 error. -/
theorem C10_like_missing_post_witness :
    likePost exStoreNoFollow 3 2
      = (HResult.error 500 "Server error",
          { exStoreNoFollow with likes := exStoreNoFollow.likes ++ [⟨3, 2⟩] }) :=
  (C10_like_missing_post exStoreNoFollow 3 2 rfl rfl).1

/-- C5: liking an already-liked post fails with 400 "Already liked" and
leaves the store unchanged; liking an existing, not-yet-liked post appends
exactly one Like row and one `like` notification addressed to the post
owner with `fromUserId` the actor; and the at-most-one-Like-per-(post,user)
invariant is preserved by the operation on every store that satisfies it. -/
theorem C5_like_spec (st : Store) (pid uid : Nat) :
    (∀ l, st.likes.find? (fun l2 => l2.postId == pid && l2.userId == uid) = some l →
        likePost st pid uid = (HResult.error 400 "Already liked", st))
    ∧ (∀ post, st.likes.find? (fun l => l.postId == pid && l.userId == uid) = none →
        st.posts.find? (fun p => p.id == pid) = some post →
        likePost st pid uid
          = (HResult.ok,
              { st with
                likes := st.likes ++ [⟨pid, uid⟩]
                notifications := st.notifications ++
                  [⟨post.userId, NotifType.like, uid, some pid, none⟩] }))
    ∧ ((∀ p u, likeCount st p u ≤ 1) →
        ∀ p u, likeCount (likePost st pid uid).2 p u ≤ 1) := by
  refine ⟨?_, ?_, ?_⟩
  · intro l hfind
    simp [likePost, hfind]
  · intro post hlike hpost
    simp [likePost, hlike, hpost]
  · intro hbound p u
    cases hfind : st.likes.find? (fun l => l.postId == pid && l.userId == uid) with
    | some l =>
      have hunch : (likePost st pid uid).2 = st := by simp [likePost, hfind]
      rw [hunch]
      exact hbound p u
    | none =>
      have hlikes : (likePost st pid uid).2.likes = st.likes ++ [⟨pid, uid⟩] := by
        cases hp : st.posts.find? (fun q => q.id == pid) <;> simp [likePost, hfind, hp]
      have hb := hbound p u
      unfold likeCount at hb ⊢
      rw [hlikes, List.filter_append, List.length_append]
      by_cases hm : (pid == p && uid == u) = true
      · have hm2 : pid = p ∧ uid = u := by simpa using hm
        obtain ⟨hp2, hu2⟩ := hm2
        subst hp2
        subst hu2
        have h0 : st.likes.filter (fun l => l.postId == pid && l.userId == uid) = [] := by
          rw [List.filter_eq_nil_iff]
          intro x hx
          exact List.find?_eq_none.mp hfind x hx
        rw [h0]
        simp
      · have hm2 : (pid == p && uid == u) = false := by
          revert hm
          cases hpb : (pid == p && uid == u) <;> simp
        have h1 : List.filter (fun l : Like => l.postId == p && l.userId == u)
            [⟨pid, uid⟩] = [] := by
          simp [List.filter_cons, hm2]
        rw [h1]
        simpa using hb

/-- Witness for C5: the concrete first like succeeds with its row and
notification; the concrete second like fails with the conflict error and an
unchanged store. -/
theorem C5_like_spec_witness :
    likePost exStoreP 1 2
      = (HResult.ok,
          { exStoreP with
            likes := exStoreP.likes ++ [⟨1, 2⟩]
            notifications := exStoreP.notifications ++
              [⟨7, NotifType.like, 2, some 1, none⟩] })
    ∧ likePost exStoreL 1 2 = (HResult.error 400 "Already liked", exStoreL) :=
  ⟨(C5_like_spec exStoreP 1 2).2.1 exPost rfl rfl,
   (C5_like_spec exStoreL 1 2).1 ⟨1, 2⟩ rfl⟩
